import Mathlib

/-
Verification of the gesture and command fusion engine of the GESTAR repository
(src/components/Scene.tsx `GestureModel` and src/App.tsx `handleVoiceCommand`).

Numbers produced by the JavaScript code are IEEE doubles; we embed them as
`FP := Option ℝ`, where `none` plays the role of NaN: every arithmetic
operation propagates `none`, and every comparison involving `none` is false,
exactly as IEEE comparisons with NaN are.  A JavaScript runtime exception
(reading a property of `undefined`, which happens when a landmark index is
out of bounds) is embedded as the `Option` layer of the per-tick functions:
a tick that would throw returns `none` instead of `some` of a new state.
-/

namespace Gestar

noncomputable section

/-- A JavaScript number: `some r` is an ordinary double (idealised as a real),
`none` is NaN. -/
abbrev FP := Option ℝ

/-- Addition on JS numbers; NaN propagates. -/
def fadd : FP → FP → FP
  | some a, some b => some (a + b)
  | _, _ => none

/-- Subtraction on JS numbers; NaN propagates. -/
def fsub : FP → FP → FP
  | some a, some b => some (a - b)
  | _, _ => none

/-- Multiplication on JS numbers; NaN propagates. -/
def fmul : FP → FP → FP
  | some a, some b => some (a * b)
  | _, _ => none

/-- Division on JS numbers (only used with nonzero literal divisors); NaN
propagates. -/
def fdiv : FP → FP → FP
  | some a, some b => some (a / b)
  | _, _ => none

/-- `Math.sqrt`: NaN on NaN or negative input. -/
noncomputable def fsqrt : FP → FP
  | some a => if a < 0 then none else some (Real.sqrt a)
  | none => none

/-- `Math.sin`. -/
noncomputable def fsin : FP → FP
  | some a => some (Real.sin a)
  | none => none

/-- `Math.cos`. -/
noncomputable def fcos : FP → FP
  | some a => some (Real.cos a)
  | none => none

/-- `Math.abs`. -/
def fabs : FP → FP
  | some a => some |a|
  | none => none

/-- The JS `<` comparison: false whenever either side is NaN. -/
noncomputable def flt : FP → FP → Bool
  | some a, some b => decide (a < b)
  | _, _ => false

/-- The JS `>` comparison: false whenever either side is NaN. -/
noncomputable def fgt : FP → FP → Bool
  | some a, some b => decide (b < a)
  | _, _ => false

/-- `Math.max`: NaN if either argument is NaN. -/
def fmax : FP → FP → FP
  | some a, some b => some (max a b)
  | _, _ => none

/-- `Math.min`: NaN if either argument is NaN. -/
def fmin : FP → FP → FP
  | some a, some b => some (min a b)
  | _, _ => none

/-- `Math.atan2 y x`, embedded as the argument of the complex number
`x + y·i`; its value always lies in (−π, π]. -/
noncomputable def atan2 (y x : ℝ) : ℝ := Complex.arg (x + y * Complex.I)

/-- `Math.atan2` on JS numbers; NaN propagates. -/
noncomputable def fatan2 : FP → FP → FP
  | some b, some a => some (atan2 b a)
  | _, _ => none

/-- The real-level angle normalization performed by Scene.tsx line 136:
`Math.atan2(Math.sin d, Math.cos d)` maps any angle difference to its
representative in (−π, π]. -/
noncomputable def normAngle (d : ℝ) : ℝ := atan2 (Real.sin d) (Real.cos d)

/-- One hand landmark (only the x and y coordinates are ever read by the
gesture code). -/
structure Pt where
  x : FP
  y : FP

/-- A landmark with ordinary real coordinates. -/
def mkPt (a b : ℝ) : Pt := { x := some a, y := some b }

/-- A landmark whose coordinates are both NaN. -/
def nanPt : Pt := { x := none, y := none }

/-- The `HandData` interface of src/types.ts: a list of hands, each a list of
landmark points (the unused `handedness` field is omitted). -/
structure HandData where
  landmarks : List (List Pt)

/-- The 2-D Euclidean distance pattern
`Math.sqrt(Math.pow(p.x-q.x,2) + Math.pow(p.y-q.y,2))` used throughout
`GestureModel`. -/
noncomputable def fdist (p q : Pt) : FP :=
  fsqrt (fadd (fmul (fsub p.x q.x) (fsub p.x q.x)) (fmul (fsub p.y q.y) (fsub p.y q.y)))

/-- The body of `getAvgFingerDist` (Scene.tsx lines 111-117) once the five
landmarks have been read: the `reduce` over fingertips 8, 12, 16, 20 starting
from 0, divided by 4. -/
noncomputable def avgFingerDistOf (mBase tip8 tip12 tip16 tip20 : Pt) : FP :=
  fdiv (fadd (fadd (fadd (fadd (some 0) (fdist tip8 mBase)) (fdist tip12 mBase))
      (fdist tip16 mBase)) (fdist tip20 mBase)) (some 4)

/-- `getAvgFingerDist` (Scene.tsx lines 111-117).  Reading a landmark that is
absent (array shorter than 21) is a JS `TypeError`; the outer `Option` is that
exception. -/
noncomputable def getAvgFingerDist (h : List Pt) : Option FP := do
  let mBase ← h.get? 9
  let tip8 ← h.get? 8
  let tip12 ← h.get? 12
  let tip16 ← h.get? 16
  let tip20 ← h.get? 20
  pure (avgFingerDistOf mBase tip8 tip12 tip16 tip20)

/-- The per-model mutable state of `GestureModel` (Scene.tsx lines 60-67):
the target position/rotation/scale refs, the bounce refs, and the two retained
classifier flags. -/
structure GState where
  targetPosX : FP
  targetPosY : FP
  targetPosZ : FP
  targetRotX : FP
  targetRotY : FP
  targetRotZ : FP
  targetScale : FP
  isBouncing : Bool
  bounceStartTime : ℝ
  lastFistState : Bool
  lastDetectedAngle : FP

/-- The initial values of the refs (Scene.tsx lines 60-67). -/
def initialGState : GState :=
  { targetPosX := some 0, targetPosY := some 0, targetPosZ := some 0
    targetRotX := some 0, targetRotY := some 0, targetRotZ := some 0
    targetScale := some 1, isBouncing := false, bounceStartTime := 0
    lastFistState := false, lastDetectedAngle := some 0 }

/-- Setting position, rotation and scale back to their defaults, as done both
by the voice-reset effect (Scene.tsx lines 72-74) and by the two-open-hand
reset (Scene.tsx lines 164-166). -/
def resetTargets (s : GState) : GState :=
  { s with targetPosX := some 0, targetPosY := some 0, targetPosZ := some 0
           targetRotX := some 0, targetRotY := some 0, targetRotZ := some 0
           targetScale := some 1 }

/-- The clamped two-hand zoom write
`Math.max(0.1, Math.min(5, handDist * 6))` (Scene.tsx line 171). -/
def zoomScale (handDist : FP) : FP :=
  fmax (some 0.1) (fmin (some 5) (fmul handDist (some 6)))

/-- The spec's scale invariant, stated from its words for comparison with the
code's writes: a scale value satisfies the bounds when it is an ordinary
number lying in [0.1, 10]; a NaN scale does not satisfy it. -/
def scaleWithinBounds : FP → Prop
  | some x => 0.1 ≤ x ∧ x ≤ 10
  | none => False

/-- The two-hand branch (Scene.tsx lines 161-173).  `getAvgFingerDist hand2`
is only evaluated when the first hand is open, mirroring the short-circuit of
`isOpen && getAvgFingerDist(hand2) > 0.35`. -/
noncomputable def twoHandUpdate (s : GState) (isOpen : Bool) (middleBase : Pt)
    (hand2 : List Pt) : Option GState := do
  let cond ← if isOpen
    then (getAvgFingerDist hand2).map (fun a2 => fgt a2 (some 0.35))
    else pure false
  if cond then
    pure (resetTargets s)
  else do
    let h2 ← hand2.get? 9
    pure { s with targetScale := zoomScale (fdist middleBase h2) }

/-- The landmarks of the primary hand that the `useFrame` body reads (Scene.tsx
lines 102-124), together with the average fingertip distance. -/
structure HandRead where
  wrist : Pt
  thumbTip : Pt
  p6 : Pt
  indexTip : Pt
  middleBase : Pt
  p10 : Pt
  p12 : Pt
  p14 : Pt
  p16 : Pt
  avgFingerDist : FP

/-- Reading the primary hand's landmarks (Scene.tsx lines 102-124); `none` when
the JS code would throw a `TypeError` because an index is out of bounds. -/
noncomputable def readHand (hand : List Pt) : Option HandRead := do
  let wrist ← hand.get? 0
  let thumbTip ← hand.get? 4
  let p6 ← hand.get? 6
  let indexTip ← hand.get? 8
  let middleBase ← hand.get? 9
  let p10 ← hand.get? 10
  let p12 ← hand.get? 12
  let p14 ← hand.get? 14
  let p16 ← hand.get? 16
  let avgFingerDist ← getAvgFingerDist hand
  pure ⟨wrist, thumbTip, p6, indexTip, middleBase, p10, p12, p14, p16, avgFingerDist⟩

/-- `isPinching` (Scene.tsx lines 107-108). -/
noncomputable def isPinchingOf (r : HandRead) : Bool :=
  flt (fdist r.thumbTip r.indexTip) (some 0.05)

/-- `isFist` (Scene.tsx line 120). -/
noncomputable def isFistOf (r : HandRead) : Bool := flt r.avgFingerDist (some 0.12)

/-- `isOpen` (Scene.tsx line 121). -/
noncomputable def isOpenOf (r : HandRead) : Bool := fgt r.avgFingerDist (some 0.35)

/-- `isPointing` (Scene.tsx line 124). -/
noncomputable def isPointingOf (r : HandRead) : Bool :=
  flt r.indexTip.y r.p6.y && fgt r.p12.y r.p10.y && fgt r.p16.y r.p14.y

/-- The pointing-rotation block (Scene.tsx lines 126-144). -/
noncomputable def pointingStep (s : GState) (r : HandRead) : GState :=
  if isPointingOf r && !isPinchingOf r && !isFistOf r then
    let relX := fsub r.indexTip.x r.middleBase.x
    let relY := fsub r.indexTip.y r.middleBase.y
    let currentAngle := fatan2 relY relX
    let indexExtension := fsqrt (fadd (fmul relX relX) (fmul relY relY))
    let s0 :=
      if fgt indexExtension (some 0.12) then
        let angleDiff := fsub currentAngle s.lastDetectedAngle
        let normalizedDiff := fatan2 (fsin angleDiff) (fcos angleDiff)
        if flt (fabs normalizedDiff) (some 1) then
          { s with targetRotY := fadd s.targetRotY (fmul normalizedDiff (some 3)) }
        else s
      else s
    { s0 with lastDetectedAngle := currentAngle }
  else s

/-- The fist edge trigger and update of the retained fist flag (Scene.tsx
lines 146-150). -/
noncomputable def fistEdgeStep (s : GState) (r : HandRead) (now : ℝ) : GState :=
  let s2 :=
    if isFistOf r && !s.lastFistState then
      { s with isBouncing := true, bounceStartTime := now }
    else s
  { s2 with lastFistState := isFistOf r }

/-- The pinch translation block (Scene.tsx lines 152-158). -/
noncomputable def pinchStep (s : GState) (r : HandRead) : GState :=
  if isPinchingOf r then
    { s with targetPosX := fmul (fsub (some 0.5) r.middleBase.x) (some 12)
             targetPosY := fmul (fsub (some 0.5) r.middleBase.y) (some 12)
             targetRotY := fadd s.targetRotY (fmul (fsub r.wrist.x r.middleBase.x) (some 0.05)) }
  else s

/-- The single-hand part of the frame (Scene.tsx lines 126-158), in source
order: pointing rotation, then fist edge, then pinch. -/
noncomputable def oneHandStep (s : GState) (r : HandRead) (now : ℝ) : GState :=
  pinchStep (fistEdgeStep (pointingStep s r) r now) r

/-- The hand-processing part of the `useFrame` body (Scene.tsx lines 100-174):
classification of the primary hand (pinch, fist, open, pointing), the
pointing-rotation update, the fist edge trigger, the pinch translation, and
the two-hand zoom/reset.  `now` is `state.clock.elapsedTime`.  The result is
`none` when the JS code would throw (landmark index out of bounds). -/
noncomputable def handBranch : GState → Option HandData → ℝ → Option GState
  | s, none, _ => some s
  | s, some ⟨[]⟩, _ => some s
  | s, some ⟨hand :: rest⟩, now => do
    let r ← readHand hand
    let s4 := oneHandStep s r now
    match rest with
    | [hand2] => twoHandUpdate s4 (isOpenOf r) r.middleBase hand2
    | _ => pure s4

/-- A 21-point hand sample with all landmarks at the same real position. -/
def handAt (a b : ℝ) : List Pt := List.replicate 21 (mkPt a b)

/-- A 21-point hand sample with every coordinate NaN. -/
def nanHand : List Pt := List.replicate 21 nanPt

/-- A malformed hand sample with only five landmark points. -/
def shortHand : List Pt :=
  [mkPt 0.5 0.5, mkPt 0.5 0.5, mkPt 0.5 0.5, mkPt 0.5 0.5, mkPt 0.5 0.5]

/-- A concrete closed fist: the four fingertips coincide with the middle-finger
base (average distance 0), the thumb tip is far from the index tip (no pinch),
and the index tip is below its middle joint (no pointing). -/
def fistHand : List Pt :=
  [mkPt 0.5 0.5, mkPt 0.5 0.5, mkPt 0.5 0.5, mkPt 0.5 0.5, mkPt 0.5 2,
    mkPt 0.5 0.5, mkPt 0.5 0, mkPt 0.5 0.5, mkPt 0.5 0.5, mkPt 0.5 0.5,
    mkPt 0.5 0.5, mkPt 0.5 0.5, mkPt 0.5 0.5, mkPt 0.5 0.5, mkPt 0.5 0.5,
    mkPt 0.5 0.5, mkPt 0.5 0.5, mkPt 0.5 0.5, mkPt 0.5 0.5, mkPt 0.5 0.5,
    mkPt 0.5 0.5]

/-- A concrete pointing hand: index tip 0.3 above the middle-finger base
(angle π/2 from it), middle and ring fingertips curled below their joints,
thumb far from the index tip, average fingertip distance 0.675 (neither fist
nor producing a pinch). -/
def pointHand : List Pt :=
  [mkPt 0.5 0.5, mkPt 0 0, mkPt 0 0, mkPt 0 0, mkPt 0.5 2,
    mkPt 0 0, mkPt 0.5 1, mkPt 0 0, mkPt 0.5 0.5, mkPt 0.5 0.2,
    mkPt 0.5 0, mkPt 0 0, mkPt 0.5 1, mkPt 0 0, mkPt 0.5 0,
    mkPt 0 0, mkPt 0.5 1, mkPt 0 0, mkPt 0 0, mkPt 0 0,
    mkPt 0.5 1]

/-- A concrete neutral first hand for two-hand ticks: average fingertip
distance 0.2 (neither fist nor open palm), no pinch, no pointing, middle-finger
base at (0, 0.5). -/
def zoomHandA : List Pt :=
  [mkPt 0 0, mkPt 0 0, mkPt 0 0, mkPt 0 0, mkPt 0.2 2,
    mkPt 0 0, mkPt 0 0, mkPt 0 0, mkPt 0.2 0.5, mkPt 0 0.5,
    mkPt 0 0, mkPt 0 0, mkPt 0.2 0.5, mkPt 0 0, mkPt 0 0,
    mkPt 0 0, mkPt 0.2 0.5, mkPt 0 0, mkPt 0 0, mkPt 0 0,
    mkPt 0.2 0.5]

/-- The landmark read of `handAt a b`. -/
def atRead (a b : ℝ) : HandRead :=
  ⟨mkPt a b, mkPt a b, mkPt a b, mkPt a b, mkPt a b, mkPt a b, mkPt a b, mkPt a b, mkPt a b,
    avgFingerDistOf (mkPt a b) (mkPt a b) (mkPt a b) (mkPt a b) (mkPt a b)⟩

/-- The landmark read of `nanHand`. -/
def nanRead : HandRead :=
  ⟨nanPt, nanPt, nanPt, nanPt, nanPt, nanPt, nanPt, nanPt, nanPt,
    avgFingerDistOf nanPt nanPt nanPt nanPt nanPt⟩

/-- The landmark read of `fistHand`. -/
def fistRead : HandRead :=
  ⟨mkPt 0.5 0.5, mkPt 0.5 2, mkPt 0.5 0, mkPt 0.5 0.5, mkPt 0.5 0.5, mkPt 0.5 0.5,
    mkPt 0.5 0.5, mkPt 0.5 0.5, mkPt 0.5 0.5,
    avgFingerDistOf (mkPt 0.5 0.5) (mkPt 0.5 0.5) (mkPt 0.5 0.5) (mkPt 0.5 0.5) (mkPt 0.5 0.5)⟩

/-- The landmark read of `pointHand`. -/
def pointRead : HandRead :=
  ⟨mkPt 0.5 0.5, mkPt 0.5 2, mkPt 0.5 1, mkPt 0.5 0.5, mkPt 0.5 0.2, mkPt 0.5 0,
    mkPt 0.5 1, mkPt 0.5 0, mkPt 0.5 1,
    avgFingerDistOf (mkPt 0.5 0.2) (mkPt 0.5 0.5) (mkPt 0.5 1) (mkPt 0.5 1) (mkPt 0.5 1)⟩

/-- The landmark read of `zoomHandA`. -/
def zoomReadA : HandRead :=
  ⟨mkPt 0 0, mkPt 0.2 2, mkPt 0 0, mkPt 0.2 0.5, mkPt 0 0.5, mkPt 0 0,
    mkPt 0.2 0.5, mkPt 0 0, mkPt 0.2 0.5,
    avgFingerDistOf (mkPt 0 0.5) (mkPt 0.2 0.5) (mkPt 0.2 0.5) (mkPt 0.2 0.5) (mkPt 0.2 0.5)⟩

/-- The bounce animation computation of one frame (Scene.tsx lines 92-93 and
177-188): given the bounce refs and the current clock time, the transient
`(currentBounceY, currentBounceScale)` offsets and the new `isBouncing` flag. -/
noncomputable def bounceOffsets (isBouncing : Bool) (bounceStartTime now : ℝ) :
    ℝ × ℝ × Bool :=
  if isBouncing then
    let bounceElapsed := now - bounceStartTime
    if bounceElapsed < 1 then
      (|Real.sin (bounceElapsed * 22)| * 1.3 * Real.exp (-bounceElapsed * 4),
        Real.sin (bounceElapsed * 22) * 0.18 * Real.exp (-bounceElapsed * 4),
        true)
    else (0, 0, false)
  else (0, 0, false)

/-- `THREE.MathUtils.lerp`. -/
def lerp (x y t : ℝ) : ℝ := x + (y - x) * t

/-- The rendered (smoothed) transform held by the mesh: position, the two
rotation axes that are ever written, and the uniform scale. -/
structure Rendered where
  posX : ℝ
  posY : ℝ
  posZ : ℝ
  rotX : ℝ
  rotY : ℝ
  scale : ℝ

/-- The smoothing block of `useFrame` (Scene.tsx lines 191-197), for a tick on
which the targets are real numbers: every channel is exponentially
interpolated from the previous rendered value toward target plus bounce
offset. -/
def renderStep (m : Rendered) (tPosX tPosY tPosZ tRotX tRotY tScale
    currentBounceY currentBounceScale : ℝ) : Rendered :=
  { posX := lerp m.posX tPosX 0.15
    posY := lerp m.posY (tPosY + currentBounceY) 0.25
    posZ := lerp m.posZ tPosZ 0.15
    rotX := lerp m.rotX tRotX 0.15
    rotY := lerp m.rotY tRotY 0.15
    scale := lerp m.scale (tScale + currentBounceScale) 0.25 }

/-- The `VoiceTransform` state of src/App.tsx (types part_000 lines 28-34). -/
structure VoiceTransform where
  scale : ℝ
  color : Option String
  bounceTrigger : ℝ
  resetTrigger : ℝ
  rotationVelocity : ℝ

/-- The initial `voiceTransform` state (App.tsx lines 18-24). -/
def initialVoiceTransform : VoiceTransform :=
  { scale := 1, color := none, bounceTrigger := 0, resetTrigger := 0, rotationVelocity := 0 }

/-- Whether the needle occurs at the head of the haystack. -/
def matchesAt : List Char → List Char → Bool
  | [], _ => true
  | _ :: _, [] => false
  | c :: cs, d :: ds => c == d && matchesAt cs ds

/-- Whether the needle occurs anywhere in the haystack (JS
`String.prototype.includes`). -/
def occursIn (needle : List Char) : List Char → Bool
  | [] => needle.isEmpty
  | d :: ds => matchesAt needle (d :: ds) || occursIn needle ds

/-- `value?.toLowerCase().includes(kw)`: false when `value` is absent. -/
def includesKw (value : Option String) (kw : String) : Bool :=
  match value with
  | none => false
  | some s => occursIn kw.data s.toLower.data

/-- The JS expression `value || 'white'` (App.tsx line 67): absent values and
the empty string are falsy and yield the literal string white. -/
def jsOrWhite : Option String → String
  | none => "white"
  | some s => if s = "" then "white" else s

/-- A decoded voice command as dispatched by App.tsx `handleVoiceCommand`:
one of the five recognised actions (with the free-text value where the code
reads it) or any other action string. -/
inductive Command where
  | scale (value : Option String)
  | color (value : Option String)
  | bounce
  | recenter
  | rotate (value : Option String)
  | other (action : String) (value : Option String)

/-- The `switch` body of `handleVoiceCommand` (App.tsx lines 52-91) acting on
the `voiceTransform` state; `now` is `Date.now()`. -/
def handleVoiceCommand (v : VoiceTransform) (now : ℝ) : Command → VoiceTransform
  | .scale value =>
    let isBigger := includesKw value "big" || includesKw value "larger" ||
      includesKw value "up" || includesKw value "more"
    let newScale := if isBigger then v.scale * 1.5 else v.scale * 0.7
    { v with scale := max 0.1 (min 5 newScale) }
  | .color value => { v with color := some (jsOrWhite value) }
  | .bounce => { v with bounceTrigger := now }
  | .recenter => { v with scale := 1, color := none, resetTrigger := now, rotationVelocity := 0 }
  | .rotate value =>
    let isFast := includesKw value "fast" || includesKw value "quick"
    let isStop := includesKw value "stop" || includesKw value "none"
    { v with rotationVelocity := if isStop then 0 else if isFast then (0.1 : ℝ) else 0.03 }
  | .other _ _ => v

/-- The effect of Scene.tsx lines 70-76: when a reset has been triggered, the
target refs are set back to their defaults.  The bounce refs are not touched. -/
noncomputable def applyResetEffect (s : GState) (resetTrigger : ℝ) : GState :=
  if 0 < resetTrigger then resetTargets s else s

/-- The effect of Scene.tsx lines 78-83: when a bounce has been triggered, the
bounce flag is set and the start time is written from `performance.now()/1000`
(the performance clock, whose epoch is the page navigation).  Note that
`bounceOffsets` subtracts this ref from `state.clock.elapsedTime`, the frame
clock, whose epoch is the first rendered frame — a strictly later instant, so
frame-clock readings lag performance-clock readings by a fixed page-specific
offset.  Only the fist-edge trigger (Scene.tsx line 148) writes the same ref
from the frame clock. -/
noncomputable def applyBounceEffect (s : GState) (bounceTrigger perfNow : ℝ) : GState :=
  if 0 < bounceTrigger then { s with isBouncing := true, bounceStartTime := perfNow } else s

/-- The effect of Scene.tsx lines 85-87: the target scale follows the voice
transform scale. -/
def applyScaleEffect (s : GState) (voiceScale : ℝ) : GState :=
  { s with targetScale := some voiceScale }

end

/-- fadd on two ordinary numbers. -/
@[simp] theorem fadd_some_some (a b : ℝ) : fadd (some a) (some b) = some (a + b) := rfl

/-- fadd propagates NaN from the left. -/
@[simp] theorem fadd_none_left (b : FP) : fadd none b = none := by cases b <;> rfl

/-- fadd propagates NaN from the right. -/
@[simp] theorem fadd_none_right (a : FP) : fadd a none = none := by cases a <;> rfl

/-- fsub on two ordinary numbers. -/
@[simp] theorem fsub_some_some (a b : ℝ) : fsub (some a) (some b) = some (a - b) := rfl

/-- fsub propagates NaN from the left. -/
@[simp] theorem fsub_none_left (b : FP) : fsub none b = none := by cases b <;> rfl

/-- fsub propagates NaN from the right. -/
@[simp] theorem fsub_none_right (a : FP) : fsub a none = none := by cases a <;> rfl

/-- fmul on two ordinary numbers. -/
@[simp] theorem fmul_some_some (a b : ℝ) : fmul (some a) (some b) = some (a * b) := rfl

/-- fmul propagates NaN from the left. -/
@[simp] theorem fmul_none_left (b : FP) : fmul none b = none := by cases b <;> rfl

/-- fmul propagates NaN from the right. -/
@[simp] theorem fmul_none_right (a : FP) : fmul a none = none := by cases a <;> rfl

/-- fdiv on two ordinary numbers. -/
@[simp] theorem fdiv_some_some (a b : ℝ) : fdiv (some a) (some b) = some (a / b) := rfl

/-- fdiv propagates NaN from the left. -/
@[simp] theorem fdiv_none_left (b : FP) : fdiv none b = none := by cases b <;> rfl

/-- fdiv propagates NaN from the right. -/
@[simp] theorem fdiv_none_right (a : FP) : fdiv a none = none := by cases a <;> rfl

/-- fmax on two ordinary numbers. -/
@[simp] theorem fmax_some_some (a b : ℝ) : fmax (some a) (some b) = some (max a b) := rfl

/-- fmin on two ordinary numbers. -/
@[simp] theorem fmin_some_some (a b : ℝ) : fmin (some a) (some b) = some (min a b) := rfl

/-- fmin propagates NaN from the right. -/
@[simp] theorem fmin_none_right (a : FP) : fmin a none = none := by cases a <;> rfl

/-- fmax propagates NaN from the right. -/
@[simp] theorem fmax_none_right (a : FP) : fmax a none = none := by cases a <;> rfl

/-- fsqrt of NaN. -/
@[simp] theorem fsqrt_none : fsqrt none = none := rfl

/-- fsqrt of a nonnegative ordinary number. -/
theorem fsqrt_some_nonneg {a : ℝ} (h : 0 ≤ a) : fsqrt (some a) = some (Real.sqrt a) := by
  simp [fsqrt, not_lt.mpr h]

/-- fsin of an ordinary number. -/
@[simp] theorem fsin_some (a : ℝ) : fsin (some a) = some (Real.sin a) := rfl

/-- fsin of NaN. -/
@[simp] theorem fsin_none : fsin none = none := rfl

/-- fcos of an ordinary number. -/
@[simp] theorem fcos_some (a : ℝ) : fcos (some a) = some (Real.cos a) := rfl

/-- fcos of NaN. -/
@[simp] theorem fcos_none : fcos none = none := rfl

/-- fabs of an ordinary number. -/
@[simp] theorem fabs_some (a : ℝ) : fabs (some a) = some |a| := rfl

/-- fabs of NaN. -/
@[simp] theorem fabs_none : fabs none = none := rfl

/-- fatan2 of two ordinary numbers. -/
@[simp] theorem fatan2_some_some (b a : ℝ) : fatan2 (some b) (some a) = some (atan2 b a) := rfl

/-- fatan2 propagates NaN from the left. -/
@[simp] theorem fatan2_none_left (a : FP) : fatan2 none a = none := by cases a <;> rfl

/-- fatan2 propagates NaN from the right. -/
@[simp] theorem fatan2_none_right (b : FP) : fatan2 b none = none := by cases b <;> rfl

/-- Comparisons with NaN on the left are false. -/
@[simp] theorem flt_none_left (b : FP) : flt none b = false := by cases b <;> rfl

/-- Comparisons with NaN on the right are false. -/
@[simp] theorem flt_none_right (a : FP) : flt a none = false := by cases a <;> rfl

/-- Comparisons with NaN on the left are false. -/
@[simp] theorem fgt_none_left (b : FP) : fgt none b = false := by cases b <;> rfl

/-- Comparisons with NaN on the right are false. -/
@[simp] theorem fgt_none_right (a : FP) : fgt a none = false := by cases a <;> rfl

/-- flt on ordinary numbers is the real comparison. -/
theorem flt_some_some (a b : ℝ) : flt (some a) (some b) = decide (a < b) := rfl

/-- fgt on ordinary numbers is the real comparison. -/
theorem fgt_some_some (a b : ℝ) : fgt (some a) (some b) = decide (b < a) := rfl

/-- Evaluating a true flt comparison. -/
theorem flt_true_of {a b : ℝ} (h : a < b) : flt (some a) (some b) = true := by
  simp [flt, h]

/-- Evaluating a false flt comparison. -/
theorem flt_false_of {a b : ℝ} (h : ¬a < b) : flt (some a) (some b) = false := by
  simp [flt, h]

/-- Evaluating a true fgt comparison. -/
theorem fgt_true_of {a b : ℝ} (h : b < a) : fgt (some a) (some b) = true := by
  simp [fgt, h]

/-- Evaluating a false fgt comparison. -/
theorem fgt_false_of {a b : ℝ} (h : ¬b < a) : fgt (some a) (some b) = false := by
  simp [fgt, h]

/-- Evaluating the distance between two concrete landmarks. -/
theorem fdist_eval {a b c d e : ℝ} (he : 0 ≤ e)
    (h : (a - c) * (a - c) + (b - d) * (b - d) = e * e) :
    fdist (mkPt a b) (mkPt c d) = some e := by
  simp only [fdist, mkPt, fsub_some_some, fmul_some_some, fadd_some_some, h]
  rw [fsqrt_some_nonneg (mul_self_nonneg e), Real.sqrt_mul_self he]

/-- Reading the five-point hand fails: the sixth landmark access is out of
bounds, i.e. the JS code throws. -/
theorem readHand_shortHand : readHand shortHand = none := rfl

/-- Reading a uniform 21-point hand. -/
theorem readHand_handAt (a b : ℝ) : readHand (handAt a b) = some (atRead a b) := rfl

/-- Reading the all-NaN hand succeeds (21 points are present). -/
theorem readHand_nanHand : readHand nanHand = some nanRead := rfl

/-- Reading the concrete fist hand. -/
theorem readHand_fistHand : readHand fistHand = some fistRead := rfl

/-- Reading the concrete pointing hand. -/
theorem readHand_pointHand : readHand pointHand = some pointRead := rfl

/-- Reading the concrete neutral zoom hand. -/
theorem readHand_zoomHandA : readHand zoomHandA = some zoomReadA := rfl

/-- Average fingertip distance of a hand whose fingertips coincide with the
middle-finger base. -/
theorem avg_same (a b : ℝ) :
    avgFingerDistOf (mkPt a b) (mkPt a b) (mkPt a b) (mkPt a b) (mkPt a b) = some 0 := by
  rw [avgFingerDistOf, fdist_eval le_rfl (by ring)]
  norm_num

/-- Average fingertip distance of the all-NaN hand is NaN. -/
theorem avg_nan : avgFingerDistOf nanPt nanPt nanPt nanPt nanPt = none := by
  simp [avgFingerDistOf, fdist, nanPt]

/-- Average fingertip distance of the pointing hand. -/
theorem avg_point :
    avgFingerDistOf (mkPt 0.5 0.2) (mkPt 0.5 0.5) (mkPt 0.5 1) (mkPt 0.5 1) (mkPt 0.5 1) =
      some 0.675 := by
  rw [avgFingerDistOf, fdist_eval (e := 0.3) (by norm_num) (by norm_num),
    fdist_eval (e := 0.8) (by norm_num) (by norm_num)]
  norm_num

/-- Average fingertip distance of the neutral zoom hand. -/
theorem avg_zoomA :
    avgFingerDistOf (mkPt 0 0.5) (mkPt 0.2 0.5) (mkPt 0.2 0.5) (mkPt 0.2 0.5) (mkPt 0.2 0.5) =
      some 0.2 := by
  rw [avgFingerDistOf, fdist_eval (e := 0.2) (by norm_num) (by norm_num)]
  norm_num

/-- A uniform hand pinches (thumb tip and index tip coincide). -/
theorem pinch_atRead (a b : ℝ) : isPinchingOf (atRead a b) = true := by
  show flt (fdist (mkPt a b) (mkPt a b)) (some 0.05) = true
  rw [fdist_eval le_rfl (by ring)]
  exact flt_true_of (by norm_num)

/-- A uniform hand is a fist (average fingertip distance 0). -/
theorem fist_atRead (a b : ℝ) : isFistOf (atRead a b) = true := by
  show flt (avgFingerDistOf (mkPt a b) (mkPt a b) (mkPt a b) (mkPt a b) (mkPt a b))
    (some 0.12) = true
  rw [avg_same]
  exact flt_true_of (by norm_num)

/-- The fist hand does not pinch. -/
theorem pinch_fistRead : isPinchingOf fistRead = false := by
  show flt (fdist (mkPt 0.5 2) (mkPt 0.5 0.5)) (some 0.05) = false
  rw [fdist_eval (e := 1.5) (by norm_num) (by norm_num)]
  exact flt_false_of (by norm_num)

/-- The fist hand is a fist. -/
theorem fist_fistRead : isFistOf fistRead = true := by
  show flt (avgFingerDistOf (mkPt 0.5 0.5) (mkPt 0.5 0.5) (mkPt 0.5 0.5) (mkPt 0.5 0.5)
    (mkPt 0.5 0.5)) (some 0.12) = true
  rw [avg_same]
  exact flt_true_of (by norm_num)

/-- The fist hand is not pointing. -/
theorem point_fistRead : isPointingOf fistRead = false := by
  show (flt (some 0.5) (some 0) && _ && _) = false
  rw [flt_false_of (by norm_num)]
  rfl

/-- The NaN hand does not pinch. -/
theorem pinch_nanRead : isPinchingOf nanRead = false := by
  show flt (fdist nanPt nanPt) (some 0.05) = false
  simp [fdist, nanPt]

/-- The NaN hand is not a fist. -/
theorem fist_nanRead : isFistOf nanRead = false := by
  show flt (avgFingerDistOf nanPt nanPt nanPt nanPt nanPt) (some 0.12) = false
  rw [avg_nan]
  simp

/-- The NaN hand is not open. -/
theorem open_nanRead : isOpenOf nanRead = false := by
  show fgt (avgFingerDistOf nanPt nanPt nanPt nanPt nanPt) (some 0.35) = false
  rw [avg_nan]
  simp

/-- The NaN hand is not pointing. -/
theorem point_nanRead : isPointingOf nanRead = false := by
  show (flt nanPt.y nanPt.y && _ && _) = false
  simp [nanPt]

/-- The pointing hand does not pinch. -/
theorem pinch_pointRead : isPinchingOf pointRead = false := by
  show flt (fdist (mkPt 0.5 2) (mkPt 0.5 0.5)) (some 0.05) = false
  rw [fdist_eval (e := 1.5) (by norm_num) (by norm_num)]
  exact flt_false_of (by norm_num)

/-- The pointing hand is not a fist. -/
theorem fist_pointRead : isFistOf pointRead = false := by
  show flt (avgFingerDistOf (mkPt 0.5 0.2) (mkPt 0.5 0.5) (mkPt 0.5 1) (mkPt 0.5 1)
    (mkPt 0.5 1)) (some 0.12) = false
  rw [avg_point]
  exact flt_false_of (by norm_num)

/-- The pointing hand is pointing. -/
theorem point_pointRead : isPointingOf pointRead = true := by
  show (flt (some 0.5) (some 1) && fgt (some 1) (some 0) && fgt (some 1) (some 0)) = true
  rw [flt_true_of (by norm_num), fgt_true_of (by norm_num)]
  rfl

/-- The neutral zoom hand does not pinch. -/
theorem pinch_zoomReadA : isPinchingOf zoomReadA = false := by
  show flt (fdist (mkPt 0.2 2) (mkPt 0.2 0.5)) (some 0.05) = false
  rw [fdist_eval (e := 1.5) (by norm_num) (by norm_num)]
  exact flt_false_of (by norm_num)

/-- The neutral zoom hand is not a fist. -/
theorem fist_zoomReadA : isFistOf zoomReadA = false := by
  show flt (avgFingerDistOf (mkPt 0 0.5) (mkPt 0.2 0.5) (mkPt 0.2 0.5) (mkPt 0.2 0.5)
    (mkPt 0.2 0.5)) (some 0.12) = false
  rw [avg_zoomA]
  exact flt_false_of (by norm_num)

/-- The neutral zoom hand is not open. -/
theorem open_zoomReadA : isOpenOf zoomReadA = false := by
  show fgt (avgFingerDistOf (mkPt 0 0.5) (mkPt 0.2 0.5) (mkPt 0.2 0.5) (mkPt 0.2 0.5)
    (mkPt 0.2 0.5)) (some 0.35) = false
  rw [avg_zoomA]
  exact fgt_false_of (by norm_num)

/-- The neutral zoom hand is not pointing. -/
theorem point_zoomReadA : isPointingOf zoomReadA = false := by
  show (flt (some 0.5) (some 0) && _ && _) = false
  rw [flt_false_of (by norm_num)]
  rfl

/-- A tick whose primary hand triggers none of the gestures only refreshes the
retained fist flag. -/
theorem oneHandStep_inert (s : GState) (r : HandRead) (now : ℝ)
    (hpinch : isPinchingOf r = false) (hfist : isFistOf r = false)
    (hpoint : isPointingOf r = false) :
    oneHandStep s r now = { s with lastFistState := false } := by
  simp [oneHandStep, pointingStep, fistEdgeStep, pinchStep, hpinch, hfist, hpoint]

/-- A fist-edge tick (fist detected, previous flag false, no pinch): the
bounce is triggered and the flag is set; nothing else changes. -/
theorem oneHandStep_fistEdge (s : GState) (r : HandRead) (now : ℝ)
    (hpinch : isPinchingOf r = false) (hfist : isFistOf r = true)
    (hlast : s.lastFistState = false) :
    oneHandStep s r now =
      { s with isBouncing := true, bounceStartTime := now, lastFistState := true } := by
  simp [oneHandStep, pointingStep, fistEdgeStep, pinchStep, hpinch, hfist, hlast]

/-- A held-fist tick (fist detected, previous flag true, no pinch): no
re-trigger, only the flag is refreshed. -/
theorem oneHandStep_fistHeld (s : GState) (r : HandRead) (now : ℝ)
    (hpinch : isPinchingOf r = false) (hfist : isFistOf r = true)
    (hlast : s.lastFistState = true) :
    oneHandStep s r now = { s with lastFistState := true } := by
  simp [oneHandStep, pointingStep, fistEdgeStep, pinchStep, hpinch, hfist, hlast]

/-- A single-hand frame is the read of the hand followed by the one-hand
update. -/
theorem handBranch_one (s : GState) (hand : List Pt) (now : ℝ) :
    handBranch s (some ⟨[hand]⟩) now = (readHand hand).map (fun r => oneHandStep s r now) := by
  cases h : readHand hand <;> simp [handBranch, h]

/-- A two-hand frame is the read of the primary hand, the one-hand update,
then the two-hand zoom/reset. -/
theorem handBranch_two (s : GState) (hand hand2 : List Pt) (now : ℝ) :
    handBranch s (some ⟨[hand, hand2]⟩) now =
      (readHand hand).bind
        (fun r => twoHandUpdate (oneHandStep s r now) (isOpenOf r) r.middleBase hand2) := by
  cases h : readHand hand <;> simp [handBranch, h]

/-- The two-hand zoom branch result, for a first hand that is not open. -/
theorem twoHandUpdate_zoom_of_not_open (s : GState) (mB : Pt) (hand2 : List Pt) (q9 : Pt)
    (h9 : hand2.get? 9 = some q9) :
    twoHandUpdate s false mB hand2 = some { s with targetScale := zoomScale (fdist mB q9) } := by
  have h9g : hand2[9]? = some q9 := by rwa [List.get?_eq_getElem?] at h9
  simp [twoHandUpdate, h9g]

/-- C6, counterexample: a hand sample with only five landmark points does not
make the classifier emit a harmless None tick — the tick throws (the landmark
read is out of bounds), embedded as `none`.  The claim asserted the classifier
emits None without throwing for such input. -/
theorem C6_counterexample : handBranch initialGState (some ⟨[shortHand]⟩) 0 = none := by
  rw [handBranch_one, readHand_shortHand]
  rfl

/-- C6, amended: an absent hand sample (no hand data, or an empty hand list)
leaves the whole state untouched, and a 21-point hand sample whose coordinates
are all NaN classifies as no gesture: the tick succeeds and leaves the target
position, rotation, scale and the bounce state untouched (only the retained
fist flag is refreshed to false).  A sample with fewer than 21 points is not
guarded against and throws instead. -/
theorem C6_amended (s : GState) (now : ℝ) :
    handBranch s none now = some s ∧
    handBranch s (some ⟨[]⟩) now = some s ∧
    handBranch s (some ⟨[nanHand]⟩) now = some { s with lastFistState := false } := by
  refine ⟨rfl, rfl, ?_⟩
  rw [handBranch_one, readHand_nanHand]
  simp [oneHandStep_inert _ _ _ pinch_nanRead fist_nanRead point_nanRead]

/-- C1, counterexample: a fist edge-trigger (previous-fist flag false, average
fingertip distance 0 below the 0.12 threshold) while the target position is
(3, 1, 0) does not reset the position: the tick only starts the bounce
animation and sets the fist flag, and the target position stays (3, 1, 0),
which differs from (0, 0, 0). -/
theorem C1_counterexample :
    handBranch { initialGState with targetPosX := some 3, targetPosY := some 1 }
        (some ⟨[fistHand]⟩) 7 =
      some { initialGState with targetPosX := some 3, targetPosY := some 1
                                isBouncing := true, bounceStartTime := 7
                                lastFistState := true } ∧
    (some (3 : ℝ) : FP) ≠ some 0 := by
  constructor
  · rw [handBranch_one, readHand_fistHand, Option.map_some',
      oneHandStep_fistEdge { initialGState with targetPosX := some 3, targetPosY := some 1 }
        fistRead 7 pinch_fistRead fist_fistRead rfl]
  · simp

/-- C1, amended: on a fist edge (fist classified, previous-fist flag false, no
pinch) the tick triggers the bounce animation — it sets the bouncing flag and
restarts the bounce start time at the current tick time — and leaves
TargetState.position (and rotation and scale) untouched; on a following tick
with the fist still held (previous-fist flag true) the bounce is not
re-triggered: the bounce flag and start time are unchanged. -/
theorem C1_amended (s : GState) (r : HandRead) (now : ℝ)
    (hfist : isFistOf r = true) (hpinch : isPinchingOf r = false) :
    (s.lastFistState = false →
      oneHandStep s r now =
        { s with isBouncing := true, bounceStartTime := now, lastFistState := true }) ∧
    (s.lastFistState = true →
      oneHandStep s r now = { s with lastFistState := true }) :=
  ⟨fun hl => oneHandStep_fistEdge s r now hpinch hfist hl,
   fun hl => oneHandStep_fistHeld s r now hpinch hfist hl⟩

/-- C1, witness: the amended theorem applied to the concrete fist hand from a
state with the previous-fist flag false. -/
theorem C1_witness :
    isFistOf fistRead = true ∧ isPinchingOf fistRead = false ∧
    ((initialGState.lastFistState = false →
      oneHandStep initialGState fistRead 7 =
        { initialGState with isBouncing := true, bounceStartTime := 7, lastFistState := true }) ∧
     (initialGState.lastFistState = true →
      oneHandStep initialGState fistRead 7 = { initialGState with lastFistState := true })) :=
  ⟨fist_fistRead, pinch_fistRead, C1_amended initialGState fistRead 7 fist_fistRead pinch_fistRead⟩

/-- C10: on a single-hand tick on which a pinch is detected (thumb-tip to
index-tip distance below 0.05), the target position x and y are set from the
middle-finger-base landmark, the target rotation y is additionally incremented
by (wrist.x − middleBase.x) · 0.05, and the target position z and target scale
are left unchanged — a held pinch is not a pure translation. -/
theorem C10_pinch_tick (s : GState) (hand : List Pt) (r : HandRead) (now : ℝ)
    (hread : readHand hand = some r) (hpinch : isPinchingOf r = true) :
    (handBranch s (some ⟨[hand]⟩) now).map (fun t => t.targetPosX) =
      some (fmul (fsub (some 0.5) r.middleBase.x) (some 12)) ∧
    (handBranch s (some ⟨[hand]⟩) now).map (fun t => t.targetPosY) =
      some (fmul (fsub (some 0.5) r.middleBase.y) (some 12)) ∧
    (handBranch s (some ⟨[hand]⟩) now).map (fun t => t.targetRotY) =
      some (fadd s.targetRotY (fmul (fsub r.wrist.x r.middleBase.x) (some 0.05))) ∧
    (handBranch s (some ⟨[hand]⟩) now).map (fun t => t.targetPosZ) = some s.targetPosZ ∧
    (handBranch s (some ⟨[hand]⟩) now).map (fun t => t.targetScale) = some s.targetScale := by
  rw [handBranch_one, hread]
  cases hf : isFistOf r <;> cases hl : s.lastFistState <;>
    simp [oneHandStep, pointingStep, fistEdgeStep, pinchStep, hpinch, hf, hl]

/-- C10, witness: the theorem applied to a concrete pinching hand (all
landmarks at (0.5, 0.5)). -/
theorem C10_witness :
    readHand (handAt 0.5 0.5) = some (atRead 0.5 0.5) ∧
    isPinchingOf (atRead 0.5 0.5) = true ∧
    (handBranch initialGState (some ⟨[handAt 0.5 0.5]⟩) 0).map (fun t => t.targetPosX) =
      some (fmul (fsub (some 0.5) (atRead 0.5 0.5).middleBase.x) (some 12)) :=
  ⟨readHand_handAt 0.5 0.5, pinch_atRead 0.5 0.5,
    (C10_pinch_tick initialGState (handAt 0.5 0.5) (atRead 0.5 0.5) 0
      (readHand_handAt 0.5 0.5) (pinch_atRead 0.5 0.5)).1⟩

/-- C9, counterexample: a color voice command with an absent value does not
clear the override — App.tsx line 67 evaluates `value || 'white'`, so the
override becomes the literal string white instead of none. -/
theorem C9_counterexample :
    (handleVoiceCommand initialVoiceTransform 0 (Command.color none)).color = some "white" ∧
    (some "white" : Option String) ≠ none := ⟨rfl, by simp⟩

/-- C9, amended: a color voice command stores a non-empty free-text value
verbatim even when unrecognized; a null/absent (or empty) value does not clear
the override but stores the literal string white; the override is cleared
(set to none) only by the recenter command. -/
theorem C9_amended (v : VoiceTransform) (now : ℝ) (s : String) (hs : s ≠ "") :
    (handleVoiceCommand v now (Command.color (some s))).color = some s ∧
    (handleVoiceCommand v now (Command.color none)).color = some "white" ∧
    (handleVoiceCommand v now (Command.color (some ""))).color = some "white" ∧
    (handleVoiceCommand v now Command.recenter).color = none := by
  refine ⟨?_, rfl, rfl, rfl⟩
  simp [handleVoiceCommand, jsOrWhite, hs]

/-- C9, witness: the amended theorem applied to the unrecognized color text
blurple. -/
theorem C9_witness :
    ("blurple" : String) ≠ "" ∧
    (handleVoiceCommand initialVoiceTransform 0 (Command.color (some "blurple"))).color =
      some "blurple" :=
  ⟨by decide, (C9_amended initialVoiceTransform 0 "blurple" (by decide)).1⟩

/-- One voice command keeps the scale inside the bounds. -/
theorem handleVoiceCommand_scale_mem (v : VoiceTransform) (t : ℝ) (c : Command)
    (hv : v.scale ∈ Set.Icc (0.1 : ℝ) 10) :
    (handleVoiceCommand v t c).scale ∈ Set.Icc (0.1 : ℝ) 10 := by
  cases c with
  | scale value =>
    refine Set.mem_Icc.mpr ⟨le_max_left _ _, max_le (by norm_num)
      ((min_le_left _ _).trans (by norm_num))⟩
  | color value => exact hv
  | bounce => exact hv
  | recenter => exact Set.mem_Icc.mpr (by norm_num [handleVoiceCommand])
  | rotate value => exact hv
  | other action value => exact hv

/-- Any sequence of voice commands keeps the scale inside the bounds. -/
theorem foldl_scale_mem (cmds : List (ℝ × Command)) (v : VoiceTransform)
    (hv : v.scale ∈ Set.Icc (0.1 : ℝ) 10) :
    (cmds.foldl (fun w tc => handleVoiceCommand w tc.1 tc.2) v).scale ∈
      Set.Icc (0.1 : ℝ) 10 := by
  induction cmds generalizing v with
  | nil => exact hv
  | cons hd tl ih => exact ih _ (handleVoiceCommand_scale_mem _ _ _ hv)

/-- Distance to an all-NaN landmark is NaN. -/
theorem fdist_nan_right (p : Pt) : fdist p nanPt = none := by
  simp [fdist, nanPt]

/-- The zoom clamp propagates NaN: `Math.max(0.1, Math.min(5, NaN * 6))` is
NaN. -/
theorem zoomScale_none : zoomScale none = none := by
  simp [zoomScale]

/-- C2, counterexample: the scale invariant is not maintained on every write.
A two-hand zoom tick whose second hand has NaN coordinates (a well-formed
21-point sample, first hand neutral so the zoom branch runs) computes a NaN
hand distance, and the clamp `Math.max(0.1, Math.min(5, handDist * 6))`
propagates the NaN into the target scale, which therefore does not lie in
[0.1, 10]. -/
theorem C2_counterexample :
    handBranch initialGState (some ⟨[zoomHandA, nanHand]⟩) 0 =
      some { initialGState with targetScale := none } ∧
    ¬scaleWithinBounds none := by
  constructor
  · rw [handBranch_two, readHand_zoomHandA, Option.some_bind,
      oneHandStep_inert _ _ _ pinch_zoomReadA fist_zoomReadA point_zoomReadA, open_zoomReadA,
      twoHandUpdate_zoom_of_not_open _ _ nanHand nanPt rfl,
      show zoomReadA.middleBase = mkPt 0 0.5 from rfl, fdist_nan_right, zoomScale_none]
    simp [initialGState]
  · simp [scaleWithinBounds]

/-- C2, amended: every scale mutation with ordinary (non-NaN) inputs lands in
[0.1, 10]: any sequence of voice commands starting from the initial state
keeps the voice scale in [0.1, 10] (the scale command clamps to
[0.1, 5] ⊆ [0.1, 10] for every input magnitude and under arbitrary
compounding), the two-hand zoom write is the clamp max 0.1 (min 5 (d·6)),
in [0.1, 10] for every real hand distance d, the recenter command sets
scale 1, and the target resets set the target scale to 1.  The invariant is
not maintained for malformed landmark input: a NaN hand distance makes the
zoom clamp write NaN. -/
theorem C2_amended (cmds : List (ℝ × Command)) (d : ℝ) (v : VoiceTransform)
    (t : ℝ) (s : GState) :
    (cmds.foldl (fun w tc => handleVoiceCommand w tc.1 tc.2) initialVoiceTransform).scale ∈
      Set.Icc (0.1 : ℝ) 10 ∧
    zoomScale (some d) = some (max 0.1 (min 5 (d * 6))) ∧
    max 0.1 (min 5 (d * 6)) ∈ Set.Icc (0.1 : ℝ) 10 ∧
    (handleVoiceCommand v t Command.recenter).scale = 1 ∧
    (resetTargets s).targetScale = some 1 ∧
    zoomScale none = none := by
  refine ⟨foldl_scale_mem cmds initialVoiceTransform (Set.mem_Icc.mpr (by norm_num [initialVoiceTransform])),
    ?_, Set.mem_Icc.mpr ⟨le_max_left _ _, max_le (by norm_num)
      ((min_le_left _ _).trans (by norm_num))⟩, rfl, rfl, zoomScale_none⟩
  simp [zoomScale]

/-- C3, counterexample: a recenter arriving mid-bounce does not cancel the
bounce: starting from a state whose bounce began at time 0, applying the reset
effect (reset trigger 5 > 0) leaves the bounce refs untouched, and the bounce
offset on the next tick at clock time 0.1 is |sin 2.2| · 1.3 · e^(−0.4), which
is not 0. -/
theorem C3_counterexample :
    (bounceOffsets
      (applyResetEffect { initialGState with isBouncing := true, bounceStartTime := 0 } 5).isBouncing
      (applyResetEffect { initialGState with isBouncing := true, bounceStartTime := 0 } 5).bounceStartTime
      0.1).1 ≠ 0 := by
  have h1 : applyResetEffect { initialGState with isBouncing := true, bounceStartTime := 0 } 5 =
      resetTargets { initialGState with isBouncing := true, bounceStartTime := 0 } := by
    rw [applyResetEffect, if_pos]
    norm_num
  rw [h1]
  show (bounceOffsets true 0 0.1).1 ≠ 0
  rw [bounceOffsets]
  rw [if_pos rfl, if_pos (show (0.1 : ℝ) - 0 < 1 by norm_num)]
  show |Real.sin ((0.1 - 0) * 22)| * 1.3 * Real.exp (-(0.1 - 0) * 4) ≠ 0
  have h22 : ((0.1 : ℝ) - 0) * 22 = 2.2 := by norm_num
  have hsin : (0 : ℝ) < Real.sin 2.2 :=
    Real.sin_pos_of_pos_of_lt_pi (by norm_num) (by linarith [Real.pi_gt_three])
  rw [h22]
  exact (mul_pos (mul_pos (abs_pos.mpr hsin.ne') (by norm_num)) (Real.exp_pos _)).ne'

/-- C3, amended: the recenter voice command resets scale, color override and
rotation velocity to defaults in one atomic step (together with raising the
target-reset trigger), but it does not cancel an in-progress bounce: the reset
effect on the scene state leaves the bouncing flag and the bounce start time
unchanged, so a bounce in progress keeps producing its envelope offsets. -/
theorem C3_amended (v : VoiceTransform) (now : ℝ) (s : GState) (r : ℝ) :
    (handleVoiceCommand v now Command.recenter).scale = 1 ∧
    (handleVoiceCommand v now Command.recenter).color = none ∧
    (handleVoiceCommand v now Command.recenter).rotationVelocity = 0 ∧
    (handleVoiceCommand v now Command.recenter).resetTrigger = now ∧
    (applyResetEffect s r).isBouncing = s.isBouncing ∧
    (applyResetEffect s r).bounceStartTime = s.bounceStartTime := by
  refine ⟨rfl, rfl, rfl, rfl, ?_, ?_⟩ <;> · rw [applyResetEffect]; split <;> rfl

/-- C5: evaluation of the code at the failing input of the clock-mismatch bug.
A voice bounce trigger raised at performance-clock time 10 (trigger timestamp
1 > 0) writes `bounceStartTime = 10` using `performance.now()/1000`
(Scene.tsx line 81).  The envelope (line 178) instead subtracts that ref from
the frame clock `state.clock.elapsedTime`, whose epoch is the first rendered
frame; with the frame clock lagging the performance clock by 0.9 s, one
second after the trigger (t = 1 ≥ duration, where the claim demands offset
exactly 0) the frame clock reads 10 + 1 − 0.9 and the envelope evaluates at
elapsed 0.1, producing the nonzero offset |sin 2.2| · 1.3 · e^(−0.4).  The
claim is the evident intent (the fist-edge trigger at line 148 writes the
same ref from the frame clock, consistently); the voice path's clock mix is
the slip. -/
theorem C5_clock_mismatch :
    (applyBounceEffect initialGState 1 10).isBouncing = true ∧
    (applyBounceEffect initialGState 1 10).bounceStartTime = 10 ∧
    (bounceOffsets true (applyBounceEffect initialGState 1 10).bounceStartTime
        (10 + 1 - 0.9)).1 =
      |Real.sin 2.2| * 1.3 * Real.exp (-0.4) ∧
    |Real.sin 2.2| * 1.3 * Real.exp (-0.4) ≠ 0 := by
  have hb : applyBounceEffect initialGState 1 10 =
      { initialGState with isBouncing := true, bounceStartTime := 10 } := by
    rw [applyBounceEffect, if_pos]
    norm_num
  refine ⟨by rw [hb], by rw [hb], ?_, ?_⟩
  · rw [hb]
    show (bounceOffsets true 10 (10 + 1 - 0.9)).1 = _
    rw [bounceOffsets]
    rw [if_pos rfl, if_pos (show (10 : ℝ) + 1 - 0.9 - 10 < 1 by norm_num)]
    show |Real.sin ((10 + 1 - 0.9 - 10) * 22)| * 1.3 * Real.exp (-(10 + 1 - 0.9 - 10) * 4) = _
    norm_num
  · have hsin : (0 : ℝ) < Real.sin 2.2 :=
      Real.sin_pos_of_pos_of_lt_pi (by norm_num) (by linarith [Real.pi_gt_three])
    exact (mul_pos (mul_pos (abs_pos.mpr hsin.ne') (by norm_num)) (Real.exp_pos _)).ne'

/-- C4, counterexample: on the tick after a recenter (targets at their
defaults, no bounce), a rendered transform at position x = 3 is not hard-set
to the default pose: the new rendered x is lerp(3, 0, 0.15) = 2.55 ≠ 0. -/
theorem C4_counterexample :
    (renderStep { posX := 3, posY := 0, posZ := 0, rotX := 0, rotY := 0, scale := 1 }
      0 0 0 0 0 1 0 0).posX = 2.55 ∧ (2.55 : ℝ) ≠ 0 := by
  constructor
  · show lerp 3 0 0.15 = 2.55
    rw [lerp]; norm_num
  · norm_num

/-- C4, amended: no operation bypasses smoothing.  On the tick after a recenter
(targets at the defaults) every channel still interpolates — the rendered x
becomes 0.85 · (previous x), hence stays nonzero whenever the previous value
was nonzero, and likewise for rotation y — and on every tick the output equals
lerp(previous rendered, target plus bounce offset, α) independently per
channel, with α = 0.15 for position x, z and both rotation axes and α = 0.25
for position y and scale. -/
theorem C4_amended (m : Rendered) (bY bS : ℝ) (h : m.posX ≠ 0) :
    (renderStep m 0 0 0 0 0 1 bY bS).posX = 0.85 * m.posX ∧
    (renderStep m 0 0 0 0 0 1 bY bS).posX ≠ 0 ∧
    (renderStep m 0 0 0 0 0 1 bY bS).rotY = 0.85 * m.rotY ∧
    (∀ tPosX tPosY tPosZ tRotX tRotY tScale : ℝ,
      (renderStep m tPosX tPosY tPosZ tRotX tRotY tScale bY bS).posX = lerp m.posX tPosX 0.15 ∧
      (renderStep m tPosX tPosY tPosZ tRotX tRotY tScale bY bS).posY =
        lerp m.posY (tPosY + bY) 0.25 ∧
      (renderStep m tPosX tPosY tPosZ tRotX tRotY tScale bY bS).posZ = lerp m.posZ tPosZ 0.15 ∧
      (renderStep m tPosX tPosY tPosZ tRotX tRotY tScale bY bS).rotX = lerp m.rotX tRotX 0.15 ∧
      (renderStep m tPosX tPosY tPosZ tRotX tRotY tScale bY bS).rotY = lerp m.rotY tRotY 0.15 ∧
      (renderStep m tPosX tPosY tPosZ tRotX tRotY tScale bY bS).scale =
        lerp m.scale (tScale + bS) 0.25) := by
  have hx : (renderStep m 0 0 0 0 0 1 bY bS).posX = 0.85 * m.posX := by
    show lerp m.posX 0 0.15 = 0.85 * m.posX
    rw [lerp]; ring
  have hy : (renderStep m 0 0 0 0 0 1 bY bS).rotY = 0.85 * m.rotY := by
    show lerp m.rotY 0 0.15 = 0.85 * m.rotY
    rw [lerp]; ring
  refine ⟨hx, ?_, hy, fun a b c d e f => ⟨rfl, rfl, rfl, rfl, rfl, rfl⟩⟩
  rw [hx]
  exact mul_ne_zero (by norm_num) h

/-- C4, witness: the amended theorem applied to a rendered transform at
position x = 3. -/
theorem C4_witness :
    (({ posX := 3, posY := 0, posZ := 0, rotX := 0, rotY := 0, scale := 1 } : Rendered).posX ≠ 0) ∧
    (renderStep { posX := 3, posY := 0, posZ := 0, rotX := 0, rotY := 0, scale := 1 }
        0 0 0 0 0 1 0 0).posX =
      0.85 * ({ posX := 3, posY := 0, posZ := 0, rotX := 0, rotY := 0, scale := 1 } : Rendered).posX :=
  ⟨show (3 : ℝ) ≠ 0 by norm_num,
    (C4_amended { posX := 3, posY := 0, posZ := 0, rotX := 0, rotY := 0, scale := 1 } 0 0
      (show (3 : ℝ) ≠ 0 by norm_num)).1⟩

/-- Hand distance between the two concrete middle-finger bases at separation
one. -/
theorem fdist_sep_one : fdist (mkPt 0 0.5) (mkPt 1 0.5) = some 1 :=
  fdist_eval (by norm_num) (by norm_num)

/-- Hand distance between the two concrete middle-finger bases at separation
0.3. -/
theorem fdist_sep_third : fdist (mkPt 0 0.5) (mkPt 0.3 0.5) = some 0.3 :=
  fdist_eval (by norm_num) (by norm_num)

/-- C8, counterexample: a two-hand tick with middle-finger-base separation 1.0
(first hand neutral, so no two-hand reset) writes target scale
max(0.1, min(5, 1·6)) = 5, while the claimed clamp to the global bounds
min(10, max(0.1, 1·6)) would give 6: the upper clamp in the code is 5, not
10. -/
theorem C8_counterexample :
    handBranch initialGState (some ⟨[zoomHandA, handAt 1 0.5]⟩) 0 =
      some { initialGState with targetScale := some 5 } ∧
    min (10 : ℝ) (max 0.1 (1 * 6)) = 6 ∧ (5 : ℝ) ≠ 6 := by
  refine ⟨?_, by norm_num, by norm_num⟩
  rw [handBranch_two, readHand_zoomHandA, Option.some_bind,
    oneHandStep_inert _ _ _ pinch_zoomReadA fist_zoomReadA point_zoomReadA, open_zoomReadA,
    twoHandUpdate_zoom_of_not_open _ _ (handAt 1 0.5) (mkPt 1 0.5) rfl,
    show zoomReadA.middleBase = mkPt 0 0.5 from rfl, fdist_sep_one]
  have hz : zoomScale (some 1) = some 5 := by
    simp only [zoomScale, fmul_some_some, fmin_some_some, fmax_some_some]
    norm_num
  rw [hz]
  simp [initialGState]

/-- C8, amended: on a two-hand tick, if the first hand is open and the second
hand's average fingertip distance exceeds 0.35 (both hands open), the target
position, rotation and scale are all reset to defaults and the zoom write does
not happen (reset takes precedence); otherwise the target scale is set to the
distance between the two hands' middle-finger-base landmarks times gain 6,
clamped to [0.1, 5] (the code's clamp, not the global [0.1, 10] bounds) — in
particular a separation of 0.3 still yields target scale 1.8. -/
theorem C8_amended (s : GState) (isOpen : Bool) (mB : Pt) (hand2 : List Pt) (a2 : FP) (q9 : Pt)
    (havg : getAvgFingerDist hand2 = some a2) (h9 : hand2.get? 9 = some q9) :
    (isOpen = true → fgt a2 (some 0.35) = true →
      twoHandUpdate s isOpen mB hand2 = some (resetTargets s)) ∧
    (isOpen = false →
      twoHandUpdate s isOpen mB hand2 = some { s with targetScale := zoomScale (fdist mB q9) }) ∧
    (fgt a2 (some 0.35) = false →
      twoHandUpdate s isOpen mB hand2 = some { s with targetScale := zoomScale (fdist mB q9) }) ∧
    (∀ d : ℝ, zoomScale (some d) = some (max 0.1 (min 5 (d * 6)))) ∧
    handBranch initialGState (some ⟨[zoomHandA, handAt 0.3 0.5]⟩) 0 =
      some { initialGState with targetScale := some 1.8 } := by
  have h9g : hand2[9]? = some q9 := by rwa [List.get?_eq_getElem?] at h9
  refine ⟨?_, ?_, ?_, fun d => by simp [zoomScale], ?_⟩
  · intro ho hgt
    subst ho
    simp [twoHandUpdate, havg, hgt]
  · intro ho
    subst ho
    simp [twoHandUpdate, h9g]
  · intro hgt
    cases ho : isOpen
    · simp [twoHandUpdate, h9g]
    · simp [twoHandUpdate, havg, hgt, h9g]
  · rw [handBranch_two, readHand_zoomHandA, Option.some_bind,
      oneHandStep_inert _ _ _ pinch_zoomReadA fist_zoomReadA point_zoomReadA, open_zoomReadA,
      twoHandUpdate_zoom_of_not_open _ _ (handAt 0.3 0.5) (mkPt 0.3 0.5) rfl,
      show zoomReadA.middleBase = mkPt 0 0.5 from rfl, fdist_sep_third]
    have hz : zoomScale (some 0.3) = some 1.8 := by
      simp only [zoomScale, fmul_some_some, fmin_some_some, fmax_some_some]
      norm_num
    rw [hz]
    simp [initialGState]

/-- C8, witness: the amended theorem applied to the concrete neutral first hand
and a uniform second hand at x = 1. -/
theorem C8_witness :
    getAvgFingerDist (handAt 1 0.5) =
      some (avgFingerDistOf (mkPt 1 0.5) (mkPt 1 0.5) (mkPt 1 0.5) (mkPt 1 0.5) (mkPt 1 0.5)) ∧
    (handAt 1 0.5).get? 9 = some (mkPt 1 0.5) ∧
    twoHandUpdate initialGState false (mkPt 0 0.5) (handAt 1 0.5) =
      some { initialGState with targetScale := zoomScale (fdist (mkPt 0 0.5) (mkPt 1 0.5)) } :=
  ⟨rfl, rfl,
    (C8_amended initialGState false (mkPt 0 0.5) (handAt 1 0.5)
      (avgFingerDistOf (mkPt 1 0.5) (mkPt 1 0.5) (mkPt 1 0.5) (mkPt 1 0.5) (mkPt 1 0.5))
      (mkPt 1 0.5) rfl rfl).2.1 rfl⟩

/-- The value of `Math.atan2` always lies in (−π, π]. -/
theorem atan2_mem_Ioc (y x : ℝ) : atan2 y x ∈ Set.Ioc (-Real.pi) Real.pi :=
  Complex.arg_mem_Ioc _

/-- Normalizing an angle that already lies in (−π, π] is the identity. -/
theorem normAngle_of_mem {d : ℝ} (hd : d ∈ Set.Ioc (-Real.pi) Real.pi) : normAngle d = d := by
  unfold normAngle atan2
  rw [Complex.ofReal_cos, Complex.ofReal_sin]
  exact Complex.arg_cos_add_sin_mul_I hd

/-- The simulated wraparound: normalizing the angle jump from +3.13 rad to
−3.13 rad (difference −6.26) yields the small angle 2π − 6.26 ≈ 0.0232. -/
theorem normAngle_wraparound : normAngle (-3.13 - 3.13) = 2 * Real.pi - 6.26 := by
  have h : (-3.13 - 3.13 : ℝ) = (2 * Real.pi - 6.26) - 2 * Real.pi := by ring
  rw [normAngle, h, Real.sin_sub_two_pi, Real.cos_sub_two_pi]
  exact normAngle_of_mem ⟨by linarith [Real.pi_gt_d6], by linarith [Real.pi_lt_d6]⟩

/-- `Math.atan2 y 0` for positive y is π/2. -/
theorem atan2_pos_imag {y : ℝ} (hy : 0 < y) : atan2 y 0 = Real.pi / 2 := by
  unfold atan2
  rw [show ((0 : ℝ) : ℂ) + (y : ℝ) * Complex.I = (y : ℝ) * Complex.I by push_cast; ring]
  rw [Complex.arg_real_mul _ hy, Complex.arg_I]

/-- Evaluation of the pointing block on a pointing tick with real coordinates,
sufficient extension, and a small normalized angle delta: the rotation
increment is the normalized delta times the gain 3 and the retained angle is
updated. -/
theorem pointingStep_eval_small (s : GState) (r : HandRead) (ix iy mx my la : ℝ)
    (hpoint : isPointingOf r = true) (hpinch : isPinchingOf r = false)
    (hfist : isFistOf r = false)
    (hix : r.indexTip.x = some ix) (hiy : r.indexTip.y = some iy)
    (hmx : r.middleBase.x = some mx) (hmy : r.middleBase.y = some my)
    (hla : s.lastDetectedAngle = some la)
    (hext : 0.12 < Real.sqrt ((ix - mx) * (ix - mx) + (iy - my) * (iy - my)))
    (hnd : |normAngle (atan2 (iy - my) (ix - mx) - la)| < 1) :
    pointingStep s r =
      { s with
          targetRotY :=
            fadd s.targetRotY (some (normAngle (atan2 (iy - my) (ix - mx) - la) * 3))
          lastDetectedAngle := some (atan2 (iy - my) (ix - mx)) } := by
  simp only [pointingStep, hpoint, hpinch, hfist, Bool.not_false, Bool.and_self,
    hix, hiy, hmx, hmy, hla, fsub_some_some, fadd_some_some, fatan2_some_some, fsin_some,
    fcos_some, fmul_some_some, fabs_some, if_true]
  rw [fsqrt_some_nonneg (add_nonneg (mul_self_nonneg _) (mul_self_nonneg _)), fgt_true_of hext]
  rw [show atan2 (Real.sin (atan2 (iy - my) (ix - mx) - la))
      (Real.cos (atan2 (iy - my) (ix - mx) - la)) =
    normAngle (atan2 (iy - my) (ix - mx) - la) from rfl]
  rw [flt_true_of hnd]
  rfl

/-- Evaluation of the pointing block on a pointing tick with real coordinates,
sufficient extension, and a large normalized angle delta (at least 1 rad in
magnitude): no rotation is applied, only the retained angle is updated. -/
theorem pointingStep_eval_large (s : GState) (r : HandRead) (ix iy mx my la : ℝ)
    (hpoint : isPointingOf r = true) (hpinch : isPinchingOf r = false)
    (hfist : isFistOf r = false)
    (hix : r.indexTip.x = some ix) (hiy : r.indexTip.y = some iy)
    (hmx : r.middleBase.x = some mx) (hmy : r.middleBase.y = some my)
    (hla : s.lastDetectedAngle = some la)
    (hext : 0.12 < Real.sqrt ((ix - mx) * (ix - mx) + (iy - my) * (iy - my)))
    (hnd : ¬|normAngle (atan2 (iy - my) (ix - mx) - la)| < 1) :
    pointingStep s r = { s with lastDetectedAngle := some (atan2 (iy - my) (ix - mx)) } := by
  simp only [pointingStep, hpoint, hpinch, hfist, Bool.not_false, Bool.and_self,
    hix, hiy, hmx, hmy, hla, fsub_some_some, fadd_some_some, fatan2_some_some, fsin_some,
    fcos_some, fmul_some_some, fabs_some, if_true]
  rw [fsqrt_some_nonneg (add_nonneg (mul_self_nonneg _) (mul_self_nonneg _)), fgt_true_of hext]
  rw [show atan2 (Real.sin (atan2 (iy - my) (ix - mx) - la))
      (Real.cos (atan2 (iy - my) (ix - mx) - la)) =
    normAngle (atan2 (iy - my) (ix - mx) - la) from rfl]
  rw [flt_false_of hnd]
  rfl

/-- C7, counterexample: a pointing tick with extension 0.3 > 0.12 whose angle
moves from 0 to π/2 has normalized delta π/2, which is normalized into (−π, π]
but exceeds the code's undisclosed deadband |delta| < 1.0; the code applies no
rotation at all (target rotation y stays at its previous value and only the
retained angle is updated), while the claim demands an increment of
π/2 · 3 ≠ 0. -/
theorem C7_counterexample :
    handBranch initialGState (some ⟨[pointHand]⟩) 0 =
      some { initialGState with lastDetectedAngle := some (Real.pi / 2) } ∧
    Real.pi / 2 * 3 ≠ 0 := by
  have hext : (0.12 : ℝ) <
      Real.sqrt (((0.5 : ℝ) - 0.5) * (0.5 - 0.5) + (0.5 - 0.2) * (0.5 - 0.2)) := by
    rw [show (((0.5 : ℝ) - 0.5) * (0.5 - 0.5) + (0.5 - 0.2) * (0.5 - 0.2) : ℝ) = 0.3 * 0.3 by
      norm_num, Real.sqrt_mul_self (by norm_num)]
    norm_num
  have hat : atan2 ((0.5 : ℝ) - 0.2) ((0.5 : ℝ) - 0.5) = Real.pi / 2 := by
    rw [show ((0.5 : ℝ) - 0.2 : ℝ) = 0.3 by norm_num, show ((0.5 : ℝ) - 0.5 : ℝ) = 0 by norm_num]
    exact atan2_pos_imag (by norm_num)
  have hnd : ¬|normAngle (atan2 ((0.5 : ℝ) - 0.2) ((0.5 : ℝ) - 0.5) - 0)| < 1 := by
    rw [hat, sub_zero,
      normAngle_of_mem ⟨by linarith [Real.pi_pos], by linarith [Real.pi_pos]⟩,
      abs_of_pos (by positivity)]
    intro hcon
    linarith [Real.pi_gt_three]
  constructor
  · rw [handBranch_one, readHand_pointHand, Option.map_some']
    have hstep : oneHandStep initialGState pointRead 0 =
        { pointingStep initialGState pointRead with lastFistState := false } := by
      simp [oneHandStep, fistEdgeStep, pinchStep, fist_pointRead, pinch_pointRead]
    rw [hstep, pointingStep_eval_large initialGState pointRead 0.5 0.5 0.5 0.2 0
      point_pointRead pinch_pointRead fist_pointRead rfl rfl rfl rfl rfl hext hnd, hat]
    rfl
  · positivity

/-- C7, amended: on a pointing tick (pointing pose, no pinch, no fist, real
coordinates) with index extension above 0.12, the normalized angle delta
normAngle(atan2 delta) always lies in (−π, π], the retained angle is updated
to the new atan2 angle, and the rotation increment equals the normalized delta
scaled by gain 3.0 only when its magnitude is below the deadband 1.0 — when
the normalized delta is 1 rad or larger in magnitude, no rotation is applied
at all; in particular the angle jump from +3.13 rad to −3.13 rad normalizes to
2π − 6.26 ≈ +0.0232, a small rotation rather than a ~2π jump. -/
theorem C7_amended (s : GState) (r : HandRead) (ix iy mx my la : ℝ)
    (hpoint : isPointingOf r = true) (hpinch : isPinchingOf r = false)
    (hfist : isFistOf r = false)
    (hix : r.indexTip.x = some ix) (hiy : r.indexTip.y = some iy)
    (hmx : r.middleBase.x = some mx) (hmy : r.middleBase.y = some my)
    (hla : s.lastDetectedAngle = some la)
    (hext : 0.12 < Real.sqrt ((ix - mx) * (ix - mx) + (iy - my) * (iy - my))) :
    normAngle (atan2 (iy - my) (ix - mx) - la) ∈ Set.Ioc (-Real.pi) Real.pi ∧
    (pointingStep s r).lastDetectedAngle = some (atan2 (iy - my) (ix - mx)) ∧
    (|normAngle (atan2 (iy - my) (ix - mx) - la)| < 1 →
      (pointingStep s r).targetRotY =
        fadd s.targetRotY (some (normAngle (atan2 (iy - my) (ix - mx) - la) * 3))) ∧
    (¬|normAngle (atan2 (iy - my) (ix - mx) - la)| < 1 →
      (pointingStep s r).targetRotY = s.targetRotY) ∧
    normAngle (-3.13 - 3.13) = 2 * Real.pi - 6.26 := by
  refine ⟨atan2_mem_Ioc _ _, ?_, fun h => ?_, fun h => ?_, normAngle_wraparound⟩
  · by_cases h : |normAngle (atan2 (iy - my) (ix - mx) - la)| < 1
    · rw [pointingStep_eval_small s r ix iy mx my la hpoint hpinch hfist hix hiy hmx hmy hla
        hext h]
    · rw [pointingStep_eval_large s r ix iy mx my la hpoint hpinch hfist hix hiy hmx hmy hla
        hext h]
  · rw [pointingStep_eval_small s r ix iy mx my la hpoint hpinch hfist hix hiy hmx hmy hla
      hext h]
  · rw [pointingStep_eval_large s r ix iy mx my la hpoint hpinch hfist hix hiy hmx hmy hla
      hext h]

/-- C7, witness: the amended theorem applied to the concrete pointing hand. -/
theorem C7_witness :
    isPointingOf pointRead = true ∧
    (0.12 : ℝ) < Real.sqrt (((0.5 : ℝ) - 0.5) * (0.5 - 0.5) + (0.5 - 0.2) * (0.5 - 0.2)) ∧
    (pointingStep initialGState pointRead).lastDetectedAngle =
      some (atan2 ((0.5 : ℝ) - 0.2) ((0.5 : ℝ) - 0.5)) := by
  have hext : (0.12 : ℝ) <
      Real.sqrt (((0.5 : ℝ) - 0.5) * (0.5 - 0.5) + (0.5 - 0.2) * (0.5 - 0.2)) := by
    rw [show (((0.5 : ℝ) - 0.5) * (0.5 - 0.5) + (0.5 - 0.2) * (0.5 - 0.2) : ℝ) = 0.3 * 0.3 by
      norm_num, Real.sqrt_mul_self (by norm_num)]
    norm_num
  exact ⟨point_pointRead, hext,
    (C7_amended initialGState pointRead 0.5 0.5 0.5 0.2 0 point_pointRead pinch_pointRead
      fist_pointRead rfl rfl rfl rfl rfl hext).2.1⟩

end Gestar
